import Mathlib

/-!
A shallow embedding of the core of the Agentic Tableau Assistant backend
(`src/backend/src`): the LangGraph workflow state and stage functions
(router / researcher / analyst / critic), the conditional routing and the
bounded revision loop, and the sandboxed Python execution engine
(`python_repl` with its import allow-list and result serializer).

External collaborators are abstracted as oracles:
- the reasoning provider (Vertex AI): each provider call is represented by
  the decoded outcome of `json.loads` applied to its (code-fence stripped)
  response content, of type `Option PyJson` (`none` models a
  `json.JSONDecodeError`), or, for tool-using stages, by a per-round
  structured turn (free text plus a list of requested tool calls);
- the dashboard data provider (Tableau): the result value of each tool call
  is supplied by the oracle;
- the CPython `exec` of an arbitrary code string: abstracted by an
  `ExecOutcome` (normal completion, raised exception, syntax error at
  compile, or alarm-triggered timeout); a small statement language
  `Stmt` gives a concrete executable instance of this abstraction that is
  enough to settle the import-allow-list claims.

Wall-clock times reported by the engine on non-timeout paths are carried in
the oracle (the code measures them with `time.time()`).
-/

namespace TableauAssistant

/-- A Python value decoded from JSON by `json.loads`: `null`, booleans,
numbers (modelled as rationals), strings, arrays, and string-keyed objects. -/
inductive PyJson where
  | null
  | bool (b : Bool)
  | num (q : ℚ)
  | str (s : String)
  | arr (xs : List PyJson)
  | obj (kvs : List (String × PyJson))
deriving Repr

/-- Lookup of a key in a decoded JSON object (Python `dict.get`); JSON object
keys are unique so first-match lookup is the dictionary lookup. -/
def jsonLookup (kvs : List (String × PyJson)) (k : String) : Option PyJson :=
  (kvs.find? (fun p => p.1 = k)).map (fun p => p.2)

/-- Whether a decoded JSON value is an object (a Python `dict`).
`parse_router_response` calls `.get` on the decoded value, which raises
`AttributeError` unless the value is a `dict`. -/
def isJsonObj : PyJson → Bool
  | .obj _ => true
  | _ => false

/-- Conversation turns (`langchain_core.messages`): the state keeps human,
AI (with an agent name) and tool messages. -/
inductive Message where
  | human (content : String)
  | ai (content : String) (name : String)
  | tool (content : String)
deriving Repr, DecidableEq

/-- Python `isinstance(msg, HumanMessage)` as a predicate on modelled messages. -/
def Message.isHuman : Message → Bool
  | .human _ => true
  | _ => false

def Message.content : Message → String
  | .human c => c
  | .ai c _ => c
  | .tool c => c

/-- Source loop `for msg in reversed(messages): if isinstance(msg, HumanMessage)` —
the most recent human message (used by router, researcher and analyst). -/
def lastHumanMessage (msgs : List Message) : Option String :=
  (msgs.reverse.find? Message.isHuman).map Message.content

/-- Source loop `for msg in state["messages"]: if isinstance(msg, HumanMessage)` —
the first human message (used by the critic). -/
def firstHumanMessage (msgs : List Message) : Option String :=
  (msgs.find? Message.isHuman).map Message.content

/-- Field `query_type: Literal["tableau", "general", "hybrid"]` (`schemas.py`). -/
inductive QueryType where
  | tableau
  | general
  | hybrid
deriving Repr, DecidableEq

/-- Field `validation_status: Literal["pending", "approved", "revision_needed"]`. -/
inductive ValidationStatus where
  | pending
  | approved
  | revision_needed
deriving Repr, DecidableEq

/-- The `AgentState` TypedDict of `schemas.py`.  `raw_data` and
`data_dictionary` are `dict[str, Any] | None` in the source; they are
modelled as optional association lists / JSON values. -/
structure AgentState where
  messages : List Message
  query_type : Option QueryType
  raw_data : Option (List (String × PyJson))
  data_dictionary : Option PyJson
  analysis_result : Option String
  validation_status : ValidationStatus
  revision_notes : Option String
  iteration_count : Nat
deriving Repr

/-- Function `create_initial_state` (`schemas.py`): all data fields absent,
`validation_status = "pending"`, `iteration_count = 0`. -/
def create_initial_state : AgentState :=
  { messages := []
    query_type := none
    raw_data := none
    data_dictionary := none
    analysis_result := none
    validation_status := .pending
    revision_notes := none
    iteration_count := 0 }

/-- The state a run starts from: the initial state holding the single
incoming user turn (`run_agent` / `stream_agent` in `graph.py`). -/
def initialState (userMessage : String) : AgentState :=
  { create_initial_state with messages := [Message.human userMessage] }

/-- The agent-configuration fields of `Settings` (`config.py`) used by the
core: pydantic validates `1 ≤ max_revision_iterations ≤ 5` and
`5 ≤ python_repl_timeout ≤ 120` at startup; theorems that need these bounds
take them as hypotheses. -/
structure Settings where
  max_revision_iterations : Nat
  python_repl_timeout : Nat
deriving Repr

/- ### Router (`agents/router.py`) -/

/-- The default dict `parse_router_response` builds when `json.loads` raises
`JSONDecodeError`. -/
def routerParseFailureDict : PyJson :=
  PyJson.obj
    [("query_type", .str "hybrid"),
     ("reasoning", .str "Failed to parse"),
     ("key_entities", .arr [])]

/-- Function `parse_router_response` (`router.py`): the argument is the outcome of
`json.loads` on the code-fence-stripped response (`none` = `JSONDecodeError`,
which the function catches and turns into the `"hybrid"` default).  When the
decoded value is a dict, `parsed.get("query_type", "hybrid")` is validated
against the three legal kinds, defaulting to `"hybrid"`.  When the decoded
value is not a dict, `parsed.get` raises `AttributeError`, which the `except
json.JSONDecodeError` clause does not catch, so the error escapes. -/
def parse_router_response (decoded : Option PyJson) :
    Except String (QueryType × PyJson) :=
  match decoded with
  | none => .ok (.hybrid, routerParseFailureDict)
  | some (PyJson.obj kvs) =>
      match (jsonLookup kvs "query_type").getD (.str "hybrid") with
      | .str "tableau" => .ok (.tableau, .obj kvs)
      | .str "general" => .ok (.general, .obj kvs)
      | .str "hybrid" => .ok (.hybrid, .obj kvs)
      | _ => .ok (.hybrid, .obj kvs)
  | some _ => .error "AttributeError: object has no attribute get"

/-- Function `route_query` (`router.py`): with no user message in the state the query
type is set to `"general"`; otherwise the router LLM is called (abstracted by
`decoded`, the `json.loads` outcome of its response) and the parsed kind is
stored.  An uncaught exception from `parse_router_response` propagates and
fails the run, hence the `Except`. -/
def route_query (decoded : Option PyJson) (s : AgentState) :
    Except String AgentState :=
  match lastHumanMessage s.messages with
  | none => .ok { s with query_type := some .general }
  | some _ =>
      match parse_router_response decoded with
      | .ok (qt, _) => .ok { s with query_type := some qt }
      | .error e => .error e

/-- Function `get_route_decision` (`router.py`): `state.get("query_type", "hybrid")`;
`"general"` goes straight to the analyst, `"tableau"` and `"hybrid"` go to
the researcher. -/
def get_route_decision (s : AgentState) : String :=
  match s.query_type.getD .hybrid with
  | .general => "analyst"
  | _ => "researcher"

/- ### Critic (`agents/critic.py` and `ValidationResult` in `schemas.py`) -/

/-- Field `status: Literal["approved", "revision_needed"]` of `ValidationResult`. -/
inductive CriticStatus where
  | approved
  | revision_needed
deriving Repr, DecidableEq

/-- Model `ValidationResult` (`schemas.py`): pydantic model with required `status`
and `confidence_score` (validated to `[0,1]`), and defaulted `issues`,
`suggestions`, `reasoning`. -/
structure ValidationResult where
  status : CriticStatus
  confidence_score : ℚ
  issues : List String
  suggestions : List String
  reasoning : String
deriving Repr

/-- pydantic validation of a `list[str]` field: every element must be a JSON
string. -/
def decodeStringList : PyJson → Option (List String)
  | .arr xs => xs.mapM (fun x => match x with | .str s => some s | _ => none)
  | _ => none

/-- Construction `ValidationResult(**parsed)`: pydantic construction from the decoded JSON.
Fails (returns `none`) when the decoded value is not a dict, a required field
is missing or ill-typed, the status literal is out of range, or the
confidence score is outside `[0,1]`; optional fields fall back to their
declared defaults when absent. -/
def decodeValidationResult (decoded : Option PyJson) : Option ValidationResult :=
  match decoded with
  | some (PyJson.obj kvs) => do
      let status ←
        match jsonLookup kvs "status" with
        | some (.str "approved") => some CriticStatus.approved
        | some (.str "revision_needed") => some CriticStatus.revision_needed
        | _ => none
      let score ←
        match jsonLookup kvs "confidence_score" with
        | some (.num q) => if 0 ≤ q ∧ q ≤ 1 then some q else none
        | _ => none
      let issues ←
        match jsonLookup kvs "issues" with
        | none => some []
        | some v => decodeStringList v
      let suggestions ←
        match jsonLookup kvs "suggestions" with
        | none => some []
        | some v => decodeStringList v
      let reasoning ←
        match jsonLookup kvs "reasoning" with
        | none => some ""
        | some (.str s) => some s
        | some _ => none
      some ⟨status, score, issues, suggestions, reasoning⟩
  | _ => none

/-- Function `parse_validation_response` (`critic.py`): the `except
(json.JSONDecodeError, Exception)` clause catches every parsing or
validation failure, so the function is total and defaults to an approved
result with confidence `0.5`. -/
def parse_validation_response (decoded : Option PyJson) : ValidationResult :=
  match decodeValidationResult decoded with
  | some v => v
  | none =>
      { status := .approved
        confidence_score := 1 / 2
        issues := ["Failed to parse validation response"]
        suggestions := []
        reasoning := "Defaulting to approved due to parsing error" }

/-- The revision-notes text built by `validate` when the critic requests
revision: `"Issues found:"` with one indented line per issue, then a
`"\nSuggestions:"` block, joined by newlines. -/
def formatRevisionNotes (issues suggestions : List String) : String :=
  let issueLines :=
    if issues.isEmpty then []
    else "Issues found:" :: issues.map (fun i => "  - " ++ i)
  let suggestionLines :=
    if suggestions.isEmpty then []
    else "\nSuggestions:" :: suggestions.map (fun s => "  - " ++ s)
  String.intercalate "\n" (issueLines ++ suggestionLines)

/-- Python `f"{v:.0%}"` percent formatting of the confidence score (the exact
stdlib rounding mode is irrelevant to every theorem below; the value only
appears inside an appended chat message). -/
def formatPercent (q : ℚ) : String :=
  toString (round (q * 100)) ++ "%"

/-- The message `validate` appends when the iteration cap forces approval. -/
def criticMaxIterMessage : String :=
  "[Critic] Approved after maximum revision attempts. Note: Some quality concerns may remain."

/-- Function `validate` (`critic.py`), the critic node.  Increments `iteration_count`,
then: at or above `max_revision_iterations` forces approval without calling
the LLM; with an empty or absent `analysis_result` approves immediately;
otherwise the critic LLM is called (abstracted by `decoded`, the
`json.loads` outcome of its response content) and the parsed judgment is
applied — `revision_needed` stores formatted `revision_notes`, approval
clears them.  The prompt built from the user question and `raw_data`
preview only feeds the LLM call and has no effect on the state. -/
def validate (maxIter : Nat) (decoded : Option PyJson) (s : AgentState) :
    AgentState :=
  let iteration := s.iteration_count + 1
  let s := { s with iteration_count := iteration }
  if maxIter ≤ iteration then
    { s with
        validation_status := .approved
        messages := s.messages ++ [Message.ai criticMaxIterMessage "critic"] }
  else if (s.analysis_result.getD "") = "" then
    { s with validation_status := .approved }
  else
    let validation := parse_validation_response decoded
    match validation.status with
    | .revision_needed =>
        let notes := formatRevisionNotes validation.issues validation.suggestions
        { s with
            validation_status := .revision_needed
            revision_notes := some notes
            messages := s.messages ++
              [Message.ai ("[Critic] Revision needed:\n" ++ notes) "critic"] }
    | .approved =>
        { s with
            validation_status := .approved
            revision_notes := none
            messages := s.messages ++
              [Message.ai
                ("[Critic] Approved (confidence: " ++
                  formatPercent validation.confidence_score ++ ")")
                "critic"] }

/-- Function `should_continue` (`critic.py`): the conditional edge out of the critic —
`"analyst"` to revise iff the status is `"revision_needed"`, else `"end"`. -/
def should_continue (s : AgentState) : String :=
  if s.validation_status = .revision_needed then "analyst" else "end"

/- ### Sandboxed execution engine (`tools/analysis_tools.py`) -/

/-- A Python runtime value, as far as `_serialize_result` distinguishes them:
`None`, primitives, lists, tuples, dicts (with arbitrary hashable keys,
kept in insertion order), pandas DataFrames and Series, numpy arrays, and a
fallback for every other object (carrying its `str()` text).  DataFrame /
Series / ndarray carry the fields the serializer reads: shape, columns /
name / dtype, and their row or element previews (which the source embeds
without further serialization). -/
inductive PyVal where
  | none
  | bool (b : Bool)
  | int (n : Int)
  | float (q : ℚ)
  | str (s : String)
  | list (xs : List PyVal)
  | tuple (xs : List PyVal)
  | dict (kvs : List (PyVal × PyVal))
  | dataFrame (shape : List Nat) (columns : List String) (records : List PyVal)
  | series (name : String) (length : Nat) (preview : List (PyVal × PyVal))
  | ndarray (shape : List Nat) (dtype : String) (elems : List PyVal)
  | other (pyrepr : String)
deriving Repr

/-- Python `str()` as used on dict keys by the dict
comprehension of the serializer.  Keys are in practice primitives; container and object
renderings are abstracted (no theorem depends on them). -/
def pyStr : PyVal → String
  | .none => "None"
  | .bool true => "True"
  | .bool false => "False"
  | .int n => toString n
  | .float q => toString q
  | .str s => s
  | .list _ => "[...]"
  | .tuple _ => "(...)"
  | .dict _ => "\x7b...\x7d"
  | .dataFrame _ _ _ => "<DataFrame>"
  | .series _ _ _ => "<Series>"
  | .ndarray _ _ _ => "<ndarray>"
  | .other r => r

/-- One assignment `d[k] = v` into a Python dict built by a comprehension:
an existing key keeps its position and gets the new value, a new key is
appended. -/
def pyDictAssign (acc : List (String × PyVal)) (k : String) (v : PyVal) :
    List (String × PyVal) :=
  if acc.any (fun p => p.1 = k) then
    acc.map (fun p => if p.1 = k then (k, v) else p)
  else
    acc ++ [(k, v)]

/-- Build a dict from a sequence of key/value assignments in order
(the semantics of `{str(k): f(v) for k, v in items}`). -/
def pyDictOfPairs (pairs : List (String × PyVal)) : List (String × PyVal) :=
  pairs.foldl (fun acc p => pyDictAssign acc p.1 p.2) []

mutual

/-- Function `_serialize_result` (`analysis_tools.py`): `None` passes through;
DataFrames, Series and ndarrays become summary dicts previewing their first
10 rows / entries / elements; primitives pass through; lists and tuples
become the list of their first 100 elements, each recursively serialized;
dicts become `{str(k): _serialize_result(v) for k, v in list(result.items())[:100]}`;
everything else falls back to `str(result)`. -/
def serializeResult : PyVal → PyVal
  | .none => .none
  | .dataFrame shape columns records =>
      .dict
        [(.str "type", .str "DataFrame"),
         (.str "shape", .list (shape.map (fun n => PyVal.int n))),
         (.str "columns", .list (columns.map (fun c => PyVal.str c))),
         (.str "preview", .list (records.take 10))]
  | .series name length preview =>
      .dict
        [(.str "type", .str "Series"),
         (.str "name", .str name),
         (.str "length", .int length),
         (.str "preview", .dict (preview.take 10))]
  | .ndarray shape dtype elems =>
      .dict
        [(.str "type", .str "ndarray"),
         (.str "shape", .list (shape.map (fun n => PyVal.int n))),
         (.str "dtype", .str dtype),
         (.str "preview", .list (elems.take 10))]
  | .str s => .str s
  | .int n => .int n
  | .float q => .float q
  | .bool b => .bool b
  | .list xs => .list ((serializeVals xs).take 100)
  | .tuple xs => .list ((serializeVals xs).take 100)
  | .dict kvs =>
      .dict ((pyDictOfPairs ((serializePairs kvs).take 100)).map
        (fun p => (PyVal.str p.1, p.2)))
  | .other pyrepr => .str pyrepr

/-- Element-wise recursive serialization of the items of a list (the list
comprehension body of the `list`/`tuple` branch). -/
def serializeVals : List PyVal → List PyVal
  | [] => []
  | x :: xs => serializeResult x :: serializeVals xs

/-- Item-wise `str(k)` / recursive value serialization of the items of a dict
(the dict comprehension body). -/
def serializePairs : List (PyVal × PyVal) → List (String × PyVal)
  | [] => []
  | (k, v) :: rest => (pyStr k, serializeResult v) :: serializePairs rest

end

/-- Constant `ALLOWED_IMPORTS` (`analysis_tools.py`). -/
def ALLOWED_IMPORTS : List String :=
  ["pandas", "numpy", "statistics", "math", "datetime", "collections",
   "itertools", "functools", "json", "csv", "io", "re"]

/-- Expression `", ".join(sorted(ALLOWED_IMPORTS))` in the denial message. -/
def allowedImportsSorted : String :=
  String.intercalate ", "
    ["collections", "csv", "datetime", "functools", "io", "itertools",
     "json", "math", "numpy", "pandas", "re", "statistics"]

/-- The message of the `ImportError` raised by `_safe_import`. -/
def importDeniedMessage (name : String) : String :=
  "Import of \x27" ++ name ++ "\x27 is not allowed. Allowed modules: " ++
    allowedImportsSorted

/-- Expression `name.split(".")[0]` — the prefix of a dotted module path before its
first dot (the whole name when it has no dot). -/
def topLevelModule (name : String) : String :=
  ⟨name.toList.takeWhile (fun c => c ≠ '.')⟩

/-- Function `_safe_import` (`analysis_tools.py`): the top-level module name
(`name.split(".")[0]`) must be in the allow-list; otherwise an `ImportError`
with a descriptive message is raised (returned here as `some message`). -/
def safe_import_denial (name : String) : Option String :=
  if ALLOWED_IMPORTS.contains (topLevelModule name) then none
  else some (importDeniedMessage name)

/-- The outcome of compiling and `exec`-ing a code string inside the
sandbox, as observed by the `try` block of `python_repl`: normal completion (with
captured stdout/stderr, the `result` variable and the measured elapsed
milliseconds), an exception reaching the caller of `exec` (name, message,
formatted traceback, stdout/stderr captured so far, elapsed), a
`SyntaxError` at `compile`, or the propagation of the alarm-signal
`TimeoutError`. -/
inductive ExecOutcome where
  | ok (stdoutText stderrText : String) (resultVar : PyVal) (elapsedMs : ℚ)
  | exn (ename emsg tb : String) (stdoutText stderrText : String) (elapsedMs : ℚ)
  | syntaxErr (msg : String) (elapsedMs : ℚ)
  | timedOut (stdoutText stderrText : String)
deriving Repr

/-- Model `PythonReplOutput` (`schemas.py`). -/
structure PythonReplOutput where
  success : Bool
  stdout : String := ""
  stderr : String := ""
  result : PyVal := .none
  execution_time_ms : ℚ := 0
deriving Repr

/-- Function `python_repl` (`analysis_tools.py`): the boundary of the engine.  The
effective deadline is `min(timeout_seconds, settings.python_repl_timeout)`.
Every branch of the source builds and returns a `PythonReplOutput` — the
`except TimeoutError / SyntaxError / Exception` clauses cover all failure
modes of the `try` block — which the totality of this function mirrors.
On success the `result` variable is serialized; on timeout the reported
elapsed time is exactly `timeout * 1000` ms and the captured stderr is
replaced by the timeout message; on a syntax error stdout is not reported;
on any other exception stderr is replaced by `"{type}: {exc}\n{traceback}"`. -/
def python_repl (cfgTimeout timeout_seconds : Nat) (outcome : ExecOutcome) :
    PythonReplOutput :=
  let timeout := min timeout_seconds cfgTimeout
  match outcome with
  | .ok stdoutText stderrText resultVar elapsedMs =>
      { success := true
        stdout := stdoutText
        stderr := stderrText
        result := serializeResult resultVar
        execution_time_ms := elapsedMs }
  | .timedOut stdoutText _ =>
      { success := false
        stdout := stdoutText
        stderr := "Execution timed out after " ++ toString timeout ++ " seconds"
        execution_time_ms := (timeout : ℚ) * 1000 }
  | .syntaxErr msg elapsedMs =>
      { success := false
        stderr := "Syntax error: " ++ msg
        execution_time_ms := elapsedMs }
  | .exn ename emsg tb stdoutText _ elapsedMs =>
      { success := false
        stdout := stdoutText
        stderr := ename ++ ": " ++ emsg ++ "\n" ++ tb
        execution_time_ms := elapsedMs }

/-- A placeholder for the `traceback.format_exc()` text attached to runtime
failures of the statement language below (its exact content is opaque). -/
def modelTraceback : String := "Traceback (most recent call last): <repl>"

/-- A concrete statement language instantiating the `exec` abstraction:
statements print to stdout (a side effect), import a module (resolved
through `_safe_import`, aborting execution when denied), bind the designated
`result` variable, or raise.  Python `exec` runs statements in order and an
uncaught exception aborts execution at the offending line, so no later
statement runs. -/
inductive Stmt where
  | importStmt (name : String)
  | printStmt (text : String)
  | setResult (v : PyVal)
  | raiseStmt (ename emsg : String)
deriving Repr

/-- Whether a statement completes without raising (its import, if any, is
allowed). -/
def stmtOk : Stmt → Bool
  | .importStmt name => (safe_import_denial name).isNone
  | .raiseStmt _ _ => false
  | _ => true

/-- The stdout a statement writes when it runs (`print` appends a newline). -/
def stmtStdout : Stmt → String
  | .printStmt text => text ++ "\n"
  | _ => ""

/-- The stdout produced by a prefix of statements that all run. -/
def stdoutOfStmts : List Stmt → String
  | [] => ""
  | stmt :: rest => stmtStdout stmt ++ stdoutOfStmts rest

/-- Sequential execution of the statement language under the semantics of `exec`:
statements run in order, accumulating stdout and the `result` binding; a
denied import raises `ImportError` and aborts with only the side effects of
the earlier statements; an explicit raise aborts likewise.  The measured
elapsed time of the abstract program is not modelled (reported as 0). -/
def execStmts : List Stmt → String → PyVal → ExecOutcome
  | [], out, res => .ok out "" res 0
  | stmt :: rest, out, res =>
      match stmt with
      | .importStmt name =>
          match safe_import_denial name with
          | some msg => .exn "ImportError" msg modelTraceback out "" 0
          | none => execStmts rest out res
      | .printStmt text => execStmts rest (out ++ text ++ "\n") res
      | .setResult v => execStmts rest out v
      | .raiseStmt ename emsg => .exn ename emsg modelTraceback out "" 0

/-- Running a whole program through the engine: compile succeeds (the
statement language is syntactically well formed), `exec` starts from empty
captures and an unbound `result`. -/
def runSandbox (cfgTimeout timeout_seconds : Nat) (prog : List Stmt) :
    PythonReplOutput :=
  python_repl cfgTimeout timeout_seconds (execStmts prog "" .none)

/- ### Researcher (`agents/researcher.py`) -/

/-- One tool invocation requested by the researcher LLM, abstracted together
with the value the invoked data-provider tool returns (the Tableau client is
an external collaborator). -/
structure ToolCall where
  name : String
  result : PyJson
deriving Repr

/-- One round of the provider conversation of the researcher: the free text
of the response and its requested tool calls (`response.content`,
`response.tool_calls`). -/
structure ProviderTurn where
  content : String
  tool_calls : List ToolCall
deriving Repr

/-- Assignment `raw_data[key] = result` on the local dict of the researcher. -/
def dictAssign (acc : List (String × PyJson)) (k : String) (v : PyJson) :
    List (String × PyJson) :=
  if acc.any (fun p => p.1 = k) then
    acc.map (fun p => if p.1 = k then (k, v) else p)
  else
    acc ++ [(k, v)]

/-- Dispatch of one researcher tool call (`research`, `researcher.py`):
`search_tableau_assets` stores under `raw_data["search_results"]`,
`get_data_dictionary` replaces the whole local `data_dictionary`,
`get_view_data_as_csv` stores under `raw_data["csv_data"]`; an unknown name
leaves both untouched (only an error dict is echoed into the conversation). -/
def applyResearchToolCall (rd : List (String × PyJson)) (dd : PyJson)
    (tc : ToolCall) : List (String × PyJson) × PyJson :=
  if tc.name = "search_tableau_assets" then
    (dictAssign rd "search_results" tc.result, dd)
  else if tc.name = "get_data_dictionary" then
    (rd, tc.result)
  else if tc.name = "get_view_data_as_csv" then
    (dictAssign rd "csv_data" tc.result, dd)
  else
    (rd, dd)

/-- The bounded tool-use loop of the researcher (`while iteration <
max_iterations`, bound 5): each round either executes every requested tool
call and continues, or — when the response carries no tool call — stops,
yielding the free text of the response as the final summary (`none` when the
bound is exhausted without a tool-free response).  The provider conversation
(`agent_messages`) is local to the stage and abstracted by the round-indexed
oracle. -/
def researchRounds (oracle : Nat → ProviderTurn) :
    Nat → Nat → List (String × PyJson) → PyJson →
    List (String × PyJson) × PyJson × Option String
  | 0, _, rd, dd => (rd, dd, none)
  | fuel + 1, round, rd, dd =>
      let resp := oracle round
      if resp.tool_calls.isEmpty then
        (rd, dd, some resp.content)
      else
        let acc := resp.tool_calls.foldl
          (fun acc tc => applyResearchToolCall acc.1 acc.2 tc) (rd, dd)
        researchRounds oracle fuel (round + 1) acc.1 acc.2

/-- Function `research` (`researcher.py`), the researcher node: with no user message
the state is returned unchanged; otherwise the tool loop runs from an empty
`raw_data` dict and an empty `data_dictionary`, a final non-empty summary is
appended as a `[Researcher]` message, and the accumulated dicts are stored
in the state (note: stored even when empty). -/
def research (oracle : Nat → ProviderTurn) (s : AgentState) : AgentState :=
  match lastHumanMessage s.messages with
  | none => s
  | some _ =>
      let acc := researchRounds oracle 5 0 [] (PyJson.obj [])
      let s :=
        match acc.2.2 with
        | some content =>
            if content = "" then s
            else
              { s with messages := s.messages ++
                  [Message.ai ("[Researcher] " ++ content) "researcher"] }
        | none => s
      { s with raw_data := some acc.1, data_dictionary := some acc.2.1 }

/- ### Analyst (`agents/analyst.py`) -/

/-- One `python_repl` invocation requested by the analyst LLM: the execution
outcome of the submitted code string is abstracted (the result is only
echoed into the stage-local conversation). -/
structure ExecRequest where
  name : String
  outcome : ExecOutcome
  timeout_seconds : Nat
deriving Repr

/-- One round of the provider conversation of the analyst. -/
structure AnalystTurn where
  content : String
  tool_calls : List ExecRequest
deriving Repr

/-- The bounded tool-use loop of the analyst (bound 5): a round with tool calls
executes them (results feed only the stage-local conversation, which the
round-indexed oracle abstracts) and continues; a tool-free round ends the
loop with the response text; exhausting the bound leaves the final response
empty (`""`, the initial value of the loop variable). -/
def analystRounds (oracle : Nat → AnalystTurn) : Nat → Nat → String
  | 0, _ => ""
  | fuel + 1, round =>
      let resp := oracle round
      if resp.tool_calls.isEmpty then resp.content
      else analystRounds oracle fuel (round + 1)

/-- Function `analyze` (`analyst.py`), the analyst node: with no user message it sets
a fixed failure text; otherwise the final response of the tool loop overwrites
`analysis_result` and is appended as an `[Analyst]` message.  The context
block built from `raw_data`, `data_dictionary` and `revision_notes` only
feeds the LLM prompt and has no effect on the state. -/
def analyze (oracle : Nat → AnalystTurn) (s : AgentState) : AgentState :=
  match lastHumanMessage s.messages with
  | none => { s with analysis_result := some "Unable to process: no user query found." }
  | some _ =>
      let final := analystRounds oracle 5 0
      { s with
          analysis_result := some final
          messages := s.messages ++
            [Message.ai ("[Analyst] " ++ final) "analyst"] }

/- ### Orchestrator (`graph.py`) -/

/-- Graph nodes (`create_graph`): router → (researcher | analyst) →
critic → (analyst | END). -/
inductive Node where
  | router
  | researcher
  | analyst
  | critic
deriving Repr, DecidableEq

/-- The external nondeterminism of one run: the decoded router response, the
per-round turns of the researcher, the per-pass and per-round turns of the analyst
(indexed first by the revision-pass number, i.e. the `iteration_count` at
entry), and the decoded critic response of each validate call (indexed by
the `iteration_count` at entry). -/
structure Oracle where
  router : Option PyJson
  researcher : Nat → ProviderTurn
  analyst : Nat → Nat → AnalystTurn
  critic : Nat → Option PyJson

/-- The analyst → critic → (analyst | END) revision loop, unrolled with
explicit fuel (the LangGraph recursion limit; every theorem below shows fuel
`≥ max_revision_iterations` suffices).  Returns the `(node, state-after)`
trace of executed nodes and whether the loop reached END (`false` =
fuel exhausted mid-loop). -/
def revisionLoop (st : Settings) (oracle : Oracle) :
    Nat → AgentState → List (Node × AgentState) × Bool
  | 0, _ => ([], false)
  | fuel + 1, s =>
      let s1 := analyze (oracle.analyst s.iteration_count) s
      let s2 := validate st.max_revision_iterations
        (oracle.critic s1.iteration_count) s1
      if should_continue s2 = "analyst" then
        let rest := revisionLoop st oracle fuel s2
        ((Node.analyst, s1) :: (Node.critic, s2) :: rest.1, rest.2)
      else
        ([(Node.analyst, s1), (Node.critic, s2)], true)

/-- One full run of the compiled graph (`run_agent`, `graph.py`): the
initial state with the single user turn enters the router; the conditional
edge sends `"researcher"` or `"analyst"`; the researcher (if entered) leads
into the revision loop.  An uncaught exception in a stage (programmer
error) is run-fatal and surfaces as `.error`. -/
def runTrace (st : Settings) (oracle : Oracle) (fuel : Nat)
    (userMessage : String) :
    Except String (List (Node × AgentState) × Bool) :=
  let s0 := initialState userMessage
  match route_query oracle.router s0 with
  | .error e => .error e
  | .ok s1 =>
      if get_route_decision s1 = "researcher" then
        let s2 := research oracle.researcher s1
        let rest := revisionLoop st oracle fuel s2
        .ok ((Node.router, s1) :: (Node.researcher, s2) :: rest.1, rest.2)
      else
        let rest := revisionLoop st oracle fuel s1
        .ok ((Node.router, s1) :: rest.1, rest.2)

/-- The node trace and completion flag of a run, with a crashed run (an uncaught
stage exception, which ends the run with no further stage states) mapped to
the empty trace. -/
def runResult (st : Settings) (oracle : Oracle) (fuel : Nat)
    (userMessage : String) : List (Node × AgentState) × Bool :=
  match runTrace st oracle fuel userMessage with
  | .ok r => r
  | .error _ => ([], true)

/- ### Stage lemmas -/

theorem validate_iteration (m : Nat) (d : Option PyJson) (s : AgentState) :
    (validate m d s).iteration_count = s.iteration_count + 1 := by
  simp only [validate]
  split
  · rfl
  · split
    · rfl
    · split <;> rfl

theorem validate_data_fields (m : Nat) (d : Option PyJson) (s : AgentState) :
    (validate m d s).raw_data = s.raw_data ∧
    (validate m d s).data_dictionary = s.data_dictionary ∧
    (validate m d s).query_type = s.query_type ∧
    (validate m d s).analysis_result = s.analysis_result := by
  simp only [validate]
  split
  · exact ⟨rfl, rfl, rfl, rfl⟩
  · split
    · exact ⟨rfl, rfl, rfl, rfl⟩
    · split <;> exact ⟨rfl, rfl, rfl, rfl⟩

/-- The critic can request revision only strictly below the iteration cap:
both the forced-approval branch and the parse-failure default yield
approval. -/
theorem validate_revision_lt (m : Nat) (d : Option PyJson) (s : AgentState)
    (h : (validate m d s).validation_status = .revision_needed) :
    s.iteration_count + 1 < m := by
  simp only [validate] at h
  split at h
  · simp at h
  · next hgt =>
    omega

/-- At or above the iteration cap the critic forces approval without
consulting the reasoning provider, touching only `iteration_count`,
`validation_status` and `messages` (in particular `revision_notes` is left
as it was). -/
theorem validate_force_approve (m : Nat) (d : Option PyJson) (s : AgentState)
    (h : m ≤ s.iteration_count + 1) :
    validate m d s =
      { s with
          iteration_count := s.iteration_count + 1
          validation_status := .approved
          messages := s.messages ++ [Message.ai criticMaxIterMessage "critic"] } := by
  simp only [validate]
  split
  · rfl
  · next hneg => exact absurd h hneg

/-- Below the cap, an empty or absent `analysis_result` makes the critic
approve immediately, touching only `iteration_count` and
`validation_status`. -/
theorem validate_empty_approve (m : Nat) (d : Option PyJson) (s : AgentState)
    (hlt : s.iteration_count + 1 < m) (he : s.analysis_result.getD "" = "") :
    validate m d s =
      { s with
          iteration_count := s.iteration_count + 1
          validation_status := .approved } := by
  simp only [validate]
  rw [if_neg (show ¬ m ≤ s.iteration_count + 1 by omega), if_pos he]

/-- A critic response that fails pydantic validation can never yield
`revision_needed`: whichever branch `validate` takes, the status comes out
approved (the fallback of `parse_validation_response` in the LLM branch). -/
theorem validate_parse_failure_approves (m : Nat) (d : Option PyJson)
    (s : AgentState) (hd : decodeValidationResult d = none) :
    (validate m d s).validation_status = .approved := by
  have hs : (parse_validation_response d).status = .approved := by
    unfold parse_validation_response
    rw [hd]
  simp only [validate]
  split
  · rfl
  · split
    · rfl
    · split
      · next heq => rw [hs] at heq; cases heq
      · rfl

theorem analyze_fields (o : Nat → AnalystTurn) (s : AgentState) :
    (analyze o s).iteration_count = s.iteration_count ∧
    (analyze o s).validation_status = s.validation_status ∧
    (analyze o s).raw_data = s.raw_data ∧
    (analyze o s).data_dictionary = s.data_dictionary ∧
    (analyze o s).query_type = s.query_type := by
  simp only [analyze]
  cases lastHumanMessage s.messages <;> exact ⟨rfl, rfl, rfl, rfl, rfl⟩

theorem research_fields (o : Nat → ProviderTurn) (s : AgentState) :
    (research o s).iteration_count = s.iteration_count ∧
    (research o s).validation_status = s.validation_status ∧
    (research o s).query_type = s.query_type ∧
    (research o s).analysis_result = s.analysis_result := by
  simp only [research]
  cases lastHumanMessage s.messages
  · exact ⟨rfl, rfl, rfl, rfl⟩
  · dsimp only
    split
    · split <;> exact ⟨rfl, rfl, rfl, rfl⟩
    · exact ⟨rfl, rfl, rfl, rfl⟩

theorem route_query_ok_fields (d : Option PyJson) (s s' : AgentState)
    (h : route_query d s = .ok s') :
    s'.iteration_count = s.iteration_count ∧
    s'.validation_status = s.validation_status ∧
    s'.raw_data = s.raw_data ∧
    s'.data_dictionary = s.data_dictionary ∧
    s'.analysis_result = s.analysis_result ∧
    s'.messages = s.messages := by
  unfold route_query at h
  cases hl : lastHumanMessage s.messages <;> rw [hl] at h
  · cases h
    exact ⟨rfl, rfl, rfl, rfl, rfl, rfl⟩
  · cases hp : parse_router_response d <;> rw [hp] at h
    · cases h
    · cases h
      exact ⟨rfl, rfl, rfl, rfl, rfl, rfl⟩

/-- At or above the iteration cap the critic status is forced to
approval. -/
theorem validate_max_status (m : Nat) (d : Option PyJson) (s : AgentState)
    (h : m ≤ s.iteration_count + 1) :
    (validate m d s).validation_status = .approved := by
  rw [validate_force_approve m d s h]

/-- The conditional edge out of the critic goes to exactly one of its two
targets. -/
theorem should_continue_cases (s : AgentState) :
    should_continue s = "analyst" ∨ should_continue s = "end" := by
  unfold should_continue
  split
  · exact Or.inl rfl
  · exact Or.inr rfl

/-- The back-edge is taken only from a `revision_needed` state. -/
theorem should_continue_analyst (s : AgentState)
    (h : should_continue s = "analyst") :
    s.validation_status = .revision_needed := by
  by_contra hne
  unfold should_continue at h
  rw [if_neg hne] at h
  exact absurd h (by decide)

/- ### Revision-loop invariant -/

/-- With enough fuel, the revision loop reaches END, and every state it
produces keeps `iteration_count` within the cap; a state that has reached
the cap is approved and does not take the back-edge. -/
theorem revisionLoop_inv (st : Settings) (oracle : Oracle) :
    ∀ (fuel : Nat) (s : AgentState),
      s.iteration_count < st.max_revision_iterations →
      st.max_revision_iterations ≤ s.iteration_count + fuel →
      (revisionLoop st oracle fuel s).2 = true ∧
      ∀ p ∈ (revisionLoop st oracle fuel s).1,
        p.2.iteration_count ≤ st.max_revision_iterations ∧
        (p.2.iteration_count = st.max_revision_iterations →
          p.2.validation_status = .approved ∧ should_continue p.2 = "end")
  | 0, s, hlt, hfuel => by omega
  | fuel + 1, s, hlt, hfuel => by
      simp only [revisionLoop]
      generalize hs1 : analyze (oracle.analyst s.iteration_count) s = s1
      generalize hs2 : validate st.max_revision_iterations
        (oracle.critic s1.iteration_count) s1 = s2
      have hc1 : s1.iteration_count = s.iteration_count := by
        rw [← hs1]
        exact (analyze_fields _ _).1
      have hc2 : s2.iteration_count = s.iteration_count + 1 := by
        rw [← hs2, validate_iteration, hc1]
      by_cases hsc : should_continue s2 = "analyst"
      · rw [if_pos hsc]
        have hrev : s2.validation_status = .revision_needed :=
          should_continue_analyst s2 hsc
        have hlt2 : s1.iteration_count + 1 < st.max_revision_iterations :=
          validate_revision_lt _ _ _ (by rw [hs2]; exact hrev)
        have ih := revisionLoop_inv st oracle fuel s2 (by omega) (by omega)
        refine ⟨ih.1, ?_⟩
        intro p hp
        rcases List.mem_cons.1 hp with hpa | hp
        · subst hpa
          dsimp only
          exact ⟨by omega, fun hm => absurd hm (by omega)⟩
        rcases List.mem_cons.1 hp with hpc | hp
        · subst hpc
          dsimp only
          exact ⟨by omega, fun hm => absurd hm (by omega)⟩
        · exact ih.2 p hp
      · rw [if_neg hsc]
        refine ⟨rfl, ?_⟩
        intro p hp
        rcases List.mem_cons.1 hp with hpa | hp
        · subst hpa
          dsimp only
          exact ⟨by omega, fun hm => absurd hm (by omega)⟩
        rcases List.mem_cons.1 hp with hpc | hp
        · subst hpc
          dsimp only
          refine ⟨by omega, fun hm => ?_⟩
          have happ : s2.validation_status = .approved := by
            rw [← hs2]
            exact validate_max_status _ _ _ (by omega)
          exact ⟨happ, (should_continue_cases s2).resolve_left hsc⟩
        · simp at hp

/-- Every state the revision loop produces carries the `raw_data` and
`data_dictionary` it was entered with (the analyst and the critic never
write them). -/
theorem revisionLoop_preserves_data (st : Settings) (oracle : Oracle) :
    ∀ (fuel : Nat) (s : AgentState),
      ∀ p ∈ (revisionLoop st oracle fuel s).1,
        p.2.raw_data = s.raw_data ∧ p.2.data_dictionary = s.data_dictionary
  | 0, s => by
      intro p hp
      simp [revisionLoop] at hp
  | fuel + 1, s => by
      intro p hp
      simp only [revisionLoop] at hp
      set s1 := analyze (oracle.analyst s.iteration_count) s with hs1
      set s2 := validate st.max_revision_iterations
        (oracle.critic s1.iteration_count) s1 with hs2
      have hd1 : s1.raw_data = s.raw_data ∧ s1.data_dictionary = s.data_dictionary := by
        rw [hs1]
        exact ⟨(analyze_fields _ _).2.2.1, (analyze_fields _ _).2.2.2.1⟩
      have hd2 : s2.raw_data = s.raw_data ∧ s2.data_dictionary = s.data_dictionary := by
        obtain ⟨h1, h2, _, _⟩ := validate_data_fields st.max_revision_iterations
          (oracle.critic s1.iteration_count) s1
        rw [← hs2] at h1 h2
        exact ⟨h1.trans hd1.1, h2.trans hd1.2⟩
      split at hp
      · rcases List.mem_cons.1 hp with hpa | hp
        · subst hpa; exact hd1
        rcases List.mem_cons.1 hp with hpc | hp
        · subst hpc; exact hd2
        · have := revisionLoop_preserves_data st oracle fuel s2 p hp
          exact ⟨this.1.trans hd2.1, this.2.trans hd2.2⟩
      · rcases List.mem_cons.1 hp with hpa | hp
        · subst hpa; exact hd1
        rcases List.mem_cons.1 hp with hpc | hp
        · subst hpc; exact hd2
        · simp at hp

/- ### Serializer lemmas -/

theorem serializeVals_eq_map (xs : List PyVal) :
    serializeVals xs = xs.map serializeResult := by
  induction xs with
  | nil => rfl
  | cons x xs ih => simp [serializeVals, ih]

theorem serializePairs_eq_map (kvs : List (PyVal × PyVal)) :
    serializePairs kvs = kvs.map (fun p => (pyStr p.1, serializeResult p.2)) := by
  induction kvs with
  | nil => rfl
  | cons kv rest ih =>
      obtain ⟨k, v⟩ := kv
      simp [serializePairs, ih]

/-- Folding dict assignments over pairwise-distinct keys just appends the
pairs in order. -/
theorem foldl_pyDictAssign_nodup :
    ∀ (pairs acc : List (String × PyVal)),
      (acc.map Prod.fst ++ pairs.map Prod.fst).Nodup →
      pairs.foldl (fun acc p => pyDictAssign acc p.1 p.2) acc = acc ++ pairs
  | [], acc, _ => by simp
  | (k, v) :: rest, acc, h => by
      have hk : k ∉ acc.map Prod.fst := by
        intro hmem
        rw [List.nodup_append] at h
        exact h.2.2 hmem (by simp)
      have hany : (acc.any fun p => p.1 = k) = false := by
        simp only [List.any_eq_false, decide_eq_true_eq]
        intro p hp hpk
        exact hk (List.mem_map.2 ⟨p, hp, hpk⟩)
      have hassign : pyDictAssign acc k v = acc ++ [(k, v)] := by
        simp [pyDictAssign, hany]
      have hrec := foldl_pyDictAssign_nodup rest (acc ++ [(k, v)]) (by
        simp only [List.map_append, List.map_cons, List.map_nil] at h ⊢
        rw [List.append_assoc]
        simpa using h)
      calc ((k, v) :: rest).foldl (fun acc p => pyDictAssign acc p.1 p.2) acc
          = rest.foldl (fun acc p => pyDictAssign acc p.1 p.2) (pyDictAssign acc k v) := rfl
        _ = rest.foldl (fun acc p => pyDictAssign acc p.1 p.2) (acc ++ [(k, v)]) := by
              rw [hassign]
        _ = (acc ++ [(k, v)]) ++ rest := hrec
        _ = acc ++ ((k, v) :: rest) := by simp

theorem pyDictOfPairs_of_nodup (pairs : List (String × PyVal))
    (h : (pairs.map Prod.fst).Nodup) : pyDictOfPairs pairs = pairs := by
  unfold pyDictOfPairs
  have := foldl_pyDictAssign_nodup pairs [] (by simpa using h)
  simpa using this

/- ### Statement-language execution lemmas -/

/-- The binding of the designated `result` variable after a prefix of
statements that all run. -/
def resultAfter : List Stmt → PyVal → PyVal
  | [], res => res
  | .setResult v :: rest, _ => resultAfter rest v
  | _ :: rest, res => resultAfter rest res

/-- Running a prefix in which every statement succeeds just accumulates its
stdout and its `result` binding. -/
theorem execStmts_append (rest : List Stmt) :
    ∀ (pre : List Stmt) (out : String) (res : PyVal),
      pre.all stmtOk = true →
      execStmts (pre ++ rest) out res =
        execStmts rest (out ++ stdoutOfStmts pre) (resultAfter pre res)
  | [], out, res, _ => by
      simp [stdoutOfStmts, resultAfter]
  | stmt :: pre, out, res, h => by
      rw [List.all_cons, Bool.and_eq_true] at h
      cases stmt with
      | importStmt name =>
          have hd : safe_import_denial name = none := by
            have := h.1
            simp only [stmtOk, Option.isNone_iff_eq_none] at this
            exact this
          calc execStmts ((Stmt.importStmt name :: pre) ++ rest) out res
              = execStmts (pre ++ rest) out res := by
                simp [execStmts, hd]
            _ = execStmts rest (out ++ stdoutOfStmts pre) (resultAfter pre res) :=
                execStmts_append rest pre out res h.2
            _ = execStmts rest (out ++ stdoutOfStmts (Stmt.importStmt name :: pre))
                  (resultAfter (Stmt.importStmt name :: pre) res) := by
                simp [stdoutOfStmts, stmtStdout, resultAfter]
      | printStmt text =>
          calc execStmts ((Stmt.printStmt text :: pre) ++ rest) out res
              = execStmts (pre ++ rest) (out ++ text ++ "\n") res := rfl
            _ = execStmts rest ((out ++ text ++ "\n") ++ stdoutOfStmts pre)
                  (resultAfter pre res) :=
                execStmts_append rest pre (out ++ text ++ "\n") res h.2
            _ = execStmts rest (out ++ stdoutOfStmts (Stmt.printStmt text :: pre))
                  (resultAfter (Stmt.printStmt text :: pre) res) := by
                simp [stdoutOfStmts, stmtStdout, resultAfter, String.append_assoc]
      | setResult v =>
          calc execStmts ((Stmt.setResult v :: pre) ++ rest) out res
              = execStmts (pre ++ rest) out v := rfl
            _ = execStmts rest (out ++ stdoutOfStmts pre) (resultAfter pre v) :=
                execStmts_append rest pre out v h.2
            _ = execStmts rest (out ++ stdoutOfStmts (Stmt.setResult v :: pre))
                  (resultAfter (Stmt.setResult v :: pre) res) := by
                simp [stdoutOfStmts, stmtStdout, resultAfter]
      | raiseStmt ename emsg =>
          simp [stmtOk] at h

/- ### Claim C2: the engine always returns a structured Result -/

/-- C2: for every code string and timeout value, `python_repl` returns a
structured `PythonReplOutput` and never raises past its boundary (mirrored
here by its totality over every execution outcome): `success` is true
exactly on normal completion, and a syntax error, a timeout and any runtime
exception are each encoded in the returned Result with `success = false`,
the captured stdout, and a failure-kind-specific stderr. -/
theorem c2_engine_always_returns_result (cfg req : Nat) (outcome : ExecOutcome) :
    ((python_repl cfg req outcome).success = true ↔
      ∃ out err res e, outcome = ExecOutcome.ok out err res e) ∧
    (∀ out err res e, outcome = ExecOutcome.ok out err res e →
      python_repl cfg req outcome =
        { success := true, stdout := out, stderr := err,
          result := serializeResult res, execution_time_ms := e }) ∧
    (∀ msg e, outcome = ExecOutcome.syntaxErr msg e →
      python_repl cfg req outcome =
        { success := false, stderr := "Syntax error: " ++ msg,
          execution_time_ms := e }) ∧
    (∀ out err, outcome = ExecOutcome.timedOut out err →
      python_repl cfg req outcome =
        { success := false, stdout := out,
          stderr := "Execution timed out after " ++ toString (min req cfg) ++
            " seconds",
          execution_time_ms := ((min req cfg : Nat) : ℚ) * 1000 }) ∧
    (∀ en em tb out err e, outcome = ExecOutcome.exn en em tb out err e →
      python_repl cfg req outcome =
        { success := false, stdout := out,
          stderr := en ++ ": " ++ em ++ "\n" ++ tb,
          execution_time_ms := e }) := by
  refine ⟨?_, ?_, ?_, ?_, ?_⟩
  · cases outcome <;> simp [python_repl]
  · intro out err res e heq
    subst heq
    rfl
  · intro msg e heq
    subst heq
    rfl
  · intro out err heq
    subst heq
    rfl
  · intro en em tb out err e heq
    subst heq
    rfl

/-- Witness for C2 at a concrete outcome (a runtime `ZeroDivisionError`). -/
theorem c2_engine_always_returns_result_witness :
    (python_repl 30 10
        (ExecOutcome.exn "ZeroDivisionError" "division by zero" "tb" "partial" "" 7)).success
        = false ∧
    (python_repl 30 10
        (ExecOutcome.exn "ZeroDivisionError" "division by zero" "tb" "partial" "" 7)).stderr
        = "ZeroDivisionError: division by zero\ntb" := by
  have h := (c2_engine_always_returns_result 30 10
    (ExecOutcome.exn "ZeroDivisionError" "division by zero" "tb" "partial" "" 7)).2.2.2.2
    "ZeroDivisionError" "division by zero" "tb" "partial" "" 7 rfl
  rw [h]
  exact ⟨rfl, rfl⟩

/- ### Claim C3: import allow-list -/

/-- C3: executing a program whose first failing statement imports a module
with a disallowed top-level name returns `success = false` with an
`ImportError` message naming the module and listing the allow-list
(`pandas, numpy, statistics, math, datetime, collections, itertools,
functools, json, csv, io, re`), the captured stdout is exactly the output
of the statements before the offending import, the `result` value is not
reported, and no statement after the import contributes any side effect. -/
theorem c3_import_denied (cfg req : Nat) (pre post : List Stmt) (m : String)
    (hpre : pre.all stmtOk = true)
    (hm : ALLOWED_IMPORTS.contains (topLevelModule m) = false) :
    runSandbox cfg req (pre ++ Stmt.importStmt m :: post) =
      { success := false
        stdout := stdoutOfStmts pre
        stderr := "ImportError: " ++
          ("Import of \x27" ++ m ++ "\x27 is not allowed. Allowed modules: " ++
            allowedImportsSorted) ++ "\n" ++ modelTraceback
        result := .none
        execution_time_ms := 0 } := by
  have hden : safe_import_denial m = some (importDeniedMessage m) := by
    unfold safe_import_denial
    rw [hm]
    rfl
  unfold runSandbox
  rw [execStmts_append (Stmt.importStmt m :: post) pre "" PyVal.none hpre]
  have hstep : execStmts (Stmt.importStmt m :: post)
      ("" ++ stdoutOfStmts pre) (resultAfter pre PyVal.none) =
      ExecOutcome.exn "ImportError" (importDeniedMessage m) modelTraceback
        ("" ++ stdoutOfStmts pre) "" 0 := by
    simp [execStmts, hden]
  rw [hstep]
  have hout : ("" ++ stdoutOfStmts pre) = stdoutOfStmts pre := by simp
  rw [hout]
  rfl

/-- Witness for C3: `print("hello")` then `import os` then `print("later")`
yields failure, the denial message for `os`, and stdout containing only the
first print. -/
theorem c3_import_denied_witness :
    runSandbox 30 10
        [Stmt.printStmt "hello", Stmt.importStmt "os", Stmt.printStmt "later"] =
      { success := false
        stdout := "hello\n"
        stderr := "ImportError: " ++
          ("Import of \x27os\x27 is not allowed. Allowed modules: " ++
            allowedImportsSorted) ++ "\n" ++ modelTraceback
        result := .none
        execution_time_ms := 0 } := by
  have h := c3_import_denied 30 10 [Stmt.printStmt "hello"]
    [Stmt.printStmt "later"] "os" (by rfl) (by rfl)
  simpa [stdoutOfStmts, stmtStdout] using h

/- ### Claim C8: timeout determinism -/

/-- C8: when execution hits the deadline, the Result has `success = false`,
a stderr naming the timeout and its bound, and a reported elapsed time of
exactly `timeout * 1000` ms where `timeout = min(timeout_seconds,
python_repl_timeout)` — in particular the effective bound, and hence the
reported time, never exceeds the configured engine timeout even when the
request asks for more. -/
theorem c8_timeout_determinism (cfg req : Nat) (out err : String) :
    (python_repl cfg req (ExecOutcome.timedOut out err)).success = false ∧
    (python_repl cfg req (ExecOutcome.timedOut out err)).stderr =
      "Execution timed out after " ++ toString (min req cfg) ++ " seconds" ∧
    (python_repl cfg req (ExecOutcome.timedOut out err)).execution_time_ms =
      ((min req cfg : Nat) : ℚ) * 1000 ∧
    min req cfg ≤ cfg ∧
    (python_repl cfg req (ExecOutcome.timedOut out err)).execution_time_ms ≤
      (cfg : ℚ) * 1000 := by
  refine ⟨rfl, rfl, rfl, Nat.min_le_right req cfg, ?_⟩
  show ((min req cfg : Nat) : ℚ) * 1000 ≤ (cfg : ℚ) * 1000
  have hle : ((min req cfg : Nat) : ℚ) ≤ (cfg : ℚ) := by
    exact_mod_cast Nat.min_le_right req cfg
  nlinarith

/- ### Claim C9: serialization truncation -/

/-- The number of entries of a serialized dict (0 on any other value). -/
def pyValDictLength : PyVal → Nat
  | .dict kvs => kvs.length
  | _ => 0

/-- A dict of 101 entries whose keys `"1"`, `0`, `1`, …, `99` are distinct
Python values, but `str(1) = str("1")`, so the dict comprehension in
`_serialize_result` merges two of the first 100 entries. -/
def collidingDict : List (PyVal × PyVal) :=
  (PyVal.str "1", PyVal.none) :: (List.range 100).map (fun i => (PyVal.int i, PyVal.none))

set_option maxRecDepth 100000 in
/-- C9 is false as stated: this dict has 101 (> 100) distinct keys, yet its
serialization has 99 entries, not exactly 100 — `str(k)` identifies the
key `"1"` with the key `1`, and the dict comprehension merges them. -/
theorem c9_counterexample_dict_key_collision :
    collidingDict.length = 101 ∧
    pyValDictLength (serializeResult (.dict collidingDict)) = 99 ∧
    pyValDictLength (serializeResult (.dict collidingDict)) ≠ 100 := by
  refine ⟨by rfl, by rfl, by decide⟩

/-- C9 (amended): lists and tuples of more than 100 elements serialize to
exactly their first 100 elements in order, each recursively serialized;
dicts serialize their first 100 entries in order with stringified keys and
recursively serialized values — yielding exactly 100 entries whenever the
stringified keys of those entries are pairwise distinct, but fewer when
`str` identifies two keys (the counterexample above); primitives pass
through unchanged. -/
theorem c9_serialization_truncation :
    (∀ xs : List PyVal, 100 < xs.length →
        serializeResult (.list xs) = .list ((xs.take 100).map serializeResult) ∧
        ((xs.take 100).map serializeResult).length = 100) ∧
    (∀ xs : List PyVal, 100 < xs.length →
        serializeResult (.tuple xs) = .list ((xs.take 100).map serializeResult)) ∧
    (∀ kvs : List (PyVal × PyVal),
        ((kvs.take 100).map (fun p => pyStr p.1)).Nodup →
        serializeResult (.dict kvs) =
          .dict ((kvs.take 100).map
            (fun p => (PyVal.str (pyStr p.1), serializeResult p.2)))) ∧
    (∀ kvs : List (PyVal × PyVal), 100 < kvs.length →
        ((kvs.take 100).map
            (fun p => (PyVal.str (pyStr p.1), serializeResult p.2))).length = 100) ∧
    (∀ s : String, serializeResult (.str s) = .str s) ∧
    (∀ n : Int, serializeResult (.int n) = .int n) ∧
    (∀ q : ℚ, serializeResult (.float q) = .float q) ∧
    (∀ b : Bool, serializeResult (.bool b) = .bool b) ∧
    serializeResult .none = .none := by
  have hmap : ∀ xs : List PyVal,
      (serializeVals xs).take 100 = (xs.take 100).map serializeResult := by
    intro xs
    rw [serializeVals_eq_map, List.map_take]
  have hpairs : ∀ kvs : List (PyVal × PyVal),
      (serializePairs kvs).take 100 =
        (kvs.take 100).map (fun p => (pyStr p.1, serializeResult p.2)) := by
    intro kvs
    rw [serializePairs_eq_map, List.map_take]
  refine ⟨?_, ?_, ?_, ?_, fun _ => rfl, fun _ => rfl, fun _ => rfl, fun _ => rfl, rfl⟩
  · intro xs hlen
    constructor
    · rw [show serializeResult (.list xs) = .list ((serializeVals xs).take 100) from rfl,
        hmap]
    · simp only [List.length_map, List.length_take]
      omega
  · intro xs _
    rw [show serializeResult (.tuple xs) = .list ((serializeVals xs).take 100) from rfl,
      hmap]
  · intro kvs hnd
    rw [show serializeResult (.dict kvs) =
        .dict ((pyDictOfPairs ((serializePairs kvs).take 100)).map
          (fun p => (PyVal.str p.1, p.2))) from rfl,
      hpairs,
      pyDictOfPairs_of_nodup _ (by
        rw [List.map_map]
        exact hnd)]
    rw [List.map_map]
    rfl
  · intro kvs hlen
    simp only [List.length_map, List.length_take]
    omega

/-- A homogeneous collection of 500 integers. -/
def fiveHundredInts : List PyVal :=
  (List.range 500).map (fun i => PyVal.int i)

set_option maxRecDepth 100000 in
/-- Witness for C9 (amended): the spec scenario of a 500-element collection
serializing to exactly 100 elements, order preserved. -/
theorem c9_serialization_truncation_witness :
    serializeResult (.list fiveHundredInts) =
      .list ((fiveHundredInts.take 100).map serializeResult) ∧
    ((fiveHundredInts.take 100).map serializeResult).length = 100 := by
  exact c9_serialization_truncation.1 fiveHundredInts (by decide)

/- ### Run-level lemmas -/

/-- Every node the revision loop visits is the analyst or the critic. -/
theorem revisionLoop_nodes (st : Settings) (oracle : Oracle) :
    ∀ (fuel : Nat) (s : AgentState), ∀ p ∈ (revisionLoop st oracle fuel s).1,
      p.1 = Node.analyst ∨ p.1 = Node.critic
  | 0, s => by
      intro p hp
      simp [revisionLoop] at hp
  | fuel + 1, s => by
      intro p hp
      simp only [revisionLoop] at hp
      set s1 := analyze (oracle.analyst s.iteration_count) s with hs1
      set s2 := validate st.max_revision_iterations
        (oracle.critic s1.iteration_count) s1 with hs2
      split at hp
      · rcases List.mem_cons.1 hp with hpa | hp
        · subst hpa; exact Or.inl rfl
        rcases List.mem_cons.1 hp with hpc | hp
        · subst hpc; exact Or.inr rfl
        · exact revisionLoop_nodes st oracle fuel s2 p hp
      · rcases List.mem_cons.1 hp with hpa | hp
        · subst hpa; exact Or.inl rfl
        rcases List.mem_cons.1 hp with hpc | hp
        · subst hpc; exact Or.inr rfl
        · simp at hp

/-- The bounded-loop invariant lifted to a whole run: every state of the
trace respects the iteration cap, a state at the cap is approved with the
back-edge untaken, and with fuel ≥ the cap the run reaches END. -/
theorem runResult_inv (st : Settings) (oracle : Oracle) (fuel : Nat)
    (msg : String)
    (hmax : 1 ≤ st.max_revision_iterations)
    (hfuel : st.max_revision_iterations ≤ fuel) :
    (∀ p ∈ (runResult st oracle fuel msg).1,
        p.2.iteration_count ≤ st.max_revision_iterations ∧
        (p.2.iteration_count = st.max_revision_iterations →
          p.2.validation_status = .approved ∧ should_continue p.2 = "end")) ∧
    (runResult st oracle fuel msg).2 = true := by
  unfold runResult runTrace
  dsimp only
  cases hr : route_query oracle.router (initialState msg) with
  | error e =>
      refine ⟨?_, rfl⟩
      intro p hp
      simp at hp
  | ok s1 =>
      have h1c : s1.iteration_count = 0 :=
        (route_query_ok_fields _ _ _ hr).1.trans rfl
      dsimp only
      by_cases hroute : get_route_decision s1 = "researcher"
      · rw [if_pos hroute]
        dsimp only
        set s2 := research oracle.researcher s1 with hs2
        have h2c : s2.iteration_count = 0 := by
          rw [hs2, (research_fields _ _).1, h1c]
        have hloop := revisionLoop_inv st oracle fuel s2 (by omega) (by omega)
        refine ⟨?_, hloop.1⟩
        intro p hp
        rcases List.mem_cons.1 hp with hpr | hp
        · subst hpr
          dsimp only
          exact ⟨by omega, fun hm => absurd hm (by omega)⟩
        rcases List.mem_cons.1 hp with hpr2 | hp
        · subst hpr2
          dsimp only
          exact ⟨by omega, fun hm => absurd hm (by omega)⟩
        · exact hloop.2 p hp
      · rw [if_neg hroute]
        dsimp only
        have hloop := revisionLoop_inv st oracle fuel s1 (by omega) (by omega)
        refine ⟨?_, hloop.1⟩
        intro p hp
        rcases List.mem_cons.1 hp with hpr | hp
        · subst hpr
          dsimp only
          exact ⟨by omega, fun hm => absurd hm (by omega)⟩
        · exact hloop.2 p hp

/- ### Claim C1: bounded revision loop -/

/-- C1: for every run from the initial state (with the configured
`1 ≤ max_revision_iterations` and a recursion budget of at least that
bound), the critic increments `iteration_count` by exactly one per call,
every state of the trace of the run satisfies
`0 ≤ iteration_count ≤ max_iterations`, any state that has reached
`max_iterations` has `validation_status = approved` with the
Validate→Analyze back-edge untaken, and the run terminates (reaches END). -/
theorem c1_bounded_revision_loop (st : Settings) (oracle : Oracle)
    (fuel : Nat) (msg : String)
    (hmax : 1 ≤ st.max_revision_iterations)
    (hfuel : st.max_revision_iterations ≤ fuel) :
    (∀ (d : Option PyJson) (s : AgentState),
        (validate st.max_revision_iterations d s).iteration_count =
          s.iteration_count + 1) ∧
    (∀ p ∈ (runResult st oracle fuel msg).1,
        0 ≤ p.2.iteration_count ∧
        p.2.iteration_count ≤ st.max_revision_iterations ∧
        (p.2.iteration_count = st.max_revision_iterations →
          p.2.validation_status = .approved ∧ should_continue p.2 = "end")) ∧
    (runResult st oracle fuel msg).2 = true := by
  have key := runResult_inv st oracle fuel msg hmax hfuel
  refine ⟨fun d s => validate_iteration _ d s, ?_, key.2⟩
  intro p hp
  exact ⟨Nat.zero_le _, (key.1 p hp).1, (key.1 p hp).2⟩

/-- The default agent settings of `config.py`:
`max_revision_iterations = 3`, `python_repl_timeout = 30`. -/
def defaultSettings : Settings := ⟨3, 30⟩

/-- A Classify response classifying the query as general. -/
def generalRouterJson : PyJson :=
  PyJson.obj
    [("query_type", .str "general"),
     ("reasoning", .str "General knowledge question"),
     ("key_entities", .arr [])]

/-- A well-formed approving critic response. -/
def approvedCriticJson : PyJson :=
  PyJson.obj
    [("status", .str "approved"),
     ("confidence_score", .num (9 / 10)),
     ("issues", .arr []),
     ("suggestions", .arr []),
     ("reasoning", .str "Analysis is accurate")]

/-- Spec Scenario A as an oracle: a general query, one analyst pass
computing the answer, an approving critic. -/
def scenarioOracle : Oracle :=
  { router := some generalRouterJson
    researcher := fun _ => ⟨"", []⟩
    analyst := fun _ _ => ⟨"6 times 7 is 42.", []⟩
    critic := fun _ => some approvedCriticJson }

/-- Witness for C1 at the Scenario A oracle with the default settings. -/
theorem c1_bounded_revision_loop_witness :
    (∀ (d : Option PyJson) (s : AgentState),
        (validate defaultSettings.max_revision_iterations d s).iteration_count =
          s.iteration_count + 1) ∧
    (∀ p ∈ (runResult defaultSettings scenarioOracle 3 "What is 6 times 7?").1,
        0 ≤ p.2.iteration_count ∧
        p.2.iteration_count ≤ defaultSettings.max_revision_iterations ∧
        (p.2.iteration_count = defaultSettings.max_revision_iterations →
          p.2.validation_status = .approved ∧ should_continue p.2 = "end")) ∧
    (runResult defaultSettings scenarioOracle 3 "What is 6 times 7?").2 = true :=
  c1_bounded_revision_loop defaultSettings scenarioOracle 3 "What is 6 times 7?"
    (by decide) (by decide)

/- ### Claim C4: routing determinism -/

/-- C4: when Classify sets `query_kind = general` the conditional edge out
of the router goes straight to the analyst, the Retrieve stage never
appears in the trace of the run, and every state of the run — the final one
included — keeps `retrieved_data` (`raw_data`) and `schema_info`
(`data_dictionary`) at their initial absent values; conversely when
Classify sets `tableau` or `hybrid` the edge goes to the researcher, which
is entered. -/
theorem c4_routing_determinism (st : Settings) (oracle : Oracle) (fuel : Nat)
    (msg : String) (s1 : AgentState)
    (hok : route_query oracle.router (initialState msg) = .ok s1) :
    (s1.query_type = some .general →
        get_route_decision s1 = "analyst" ∧
        (∀ p ∈ (runResult st oracle fuel msg).1, p.1 ≠ Node.researcher) ∧
        (∀ p ∈ (runResult st oracle fuel msg).1,
            p.2.raw_data = none ∧ p.2.data_dictionary = none)) ∧
    ((s1.query_type = some .tableau ∨ s1.query_type = some .hybrid) →
        get_route_decision s1 = "researcher" ∧
        (Node.researcher, research oracle.researcher s1) ∈
          (runResult st oracle fuel msg).1) := by
  have hdata1 : s1.raw_data = none ∧ s1.data_dictionary = none := by
    have h := route_query_ok_fields _ _ _ hok
    exact ⟨h.2.2.1.trans rfl, h.2.2.2.1.trans rfl⟩
  constructor
  · intro hq
    have hdec : get_route_decision s1 = "analyst" := by
      unfold get_route_decision
      rw [hq]
      rfl
    refine ⟨hdec, ?_, ?_⟩
    · intro p hp
      unfold runResult runTrace at hp
      dsimp only at hp
      rw [hok] at hp
      dsimp only at hp
      rw [if_neg (by rw [hdec]; decide)] at hp
      dsimp only at hp
      rcases List.mem_cons.1 hp with hpr | hp
      · subst hpr; dsimp only; decide
      · rcases revisionLoop_nodes st oracle fuel s1 p hp with h | h <;> rw [h] <;> decide
    · intro p hp
      unfold runResult runTrace at hp
      dsimp only at hp
      rw [hok] at hp
      dsimp only at hp
      rw [if_neg (by rw [hdec]; decide)] at hp
      dsimp only at hp
      rcases List.mem_cons.1 hp with hpr | hp
      · subst hpr; exact hdata1
      · have h := revisionLoop_preserves_data st oracle fuel s1 p hp
        exact ⟨h.1.trans hdata1.1, h.2.trans hdata1.2⟩
  · intro hq
    have hdec : get_route_decision s1 = "researcher" := by
      unfold get_route_decision
      rcases hq with hq | hq <;> rw [hq] <;> rfl
    refine ⟨hdec, ?_⟩
    unfold runResult runTrace
    dsimp only
    rw [hok]
    dsimp only
    rw [if_pos hdec]
    dsimp only
    exact List.mem_cons.2 (Or.inr (List.mem_cons.2 (Or.inl rfl)))

/-- Witness for C4 at the Scenario A oracle: the general route skips the
researcher and leaves both data fields absent everywhere. -/
theorem c4_routing_determinism_witness :
    get_route_decision
        { initialState "What is 6 times 7?" with query_type := some QueryType.general } =
      "analyst" ∧
    (∀ p ∈ (runResult defaultSettings scenarioOracle 3 "What is 6 times 7?").1,
        p.1 ≠ Node.researcher) ∧
    (∀ p ∈ (runResult defaultSettings scenarioOracle 3 "What is 6 times 7?").1,
        p.2.raw_data = none ∧ p.2.data_dictionary = none) := by
  have h := c4_routing_determinism defaultSettings scenarioOracle 3 "What is 6 times 7?"
    { initialState "What is 6 times 7?" with query_type := some QueryType.general }
    (by rfl)
  exact h.1 (by rfl)

/- ### Claim C5: fail-safe Classify parsing -/

/-- C5 is false as stated: a Classify response that parses as JSON but is
not an object — here the JSON array `[1, 2, 3]` — does not default to
hybrid; `parsed.get` raises an `AttributeError` that the
`except json.JSONDecodeError` clause does not catch, and the run fails. -/
theorem c5_counterexample_nonobject_response :
    route_query (some (PyJson.arr [.num 1, .num 2, .num 3]))
        (initialState "total sales by region") =
      .error "AttributeError: object has no attribute get" := rfl

/-- Whether a JSON value is one of the three legal `query_type` strings. -/
def isValidQueryTypeField : PyJson → Bool
  | .str "tableau" => true
  | .str "general" => true
  | .str "hybrid" => true
  | _ => false

/-- C5 (amended): when the Classify response fails to decode as JSON, or
decodes to a JSON object whose `query_type` entry is missing or outside
{tableau, general, hybrid}, the stage does not fail the run and sets
`query_kind = hybrid`; but when the response decodes to a non-object JSON
value, `parsed.get` raises an uncaught `AttributeError` and the run
fails. -/
theorem c5_parse_failure_defaults_hybrid (decoded : Option PyJson)
    (s : AgentState) (u : String)
    (hu : lastHumanMessage s.messages = some u) :
    (decoded = none →
        route_query decoded s = .ok { s with query_type := some .hybrid }) ∧
    (∀ kvs, decoded = some (.obj kvs) →
        (∀ qt, jsonLookup kvs "query_type" = some qt →
          isValidQueryTypeField qt = false) →
        route_query decoded s = .ok { s with query_type := some .hybrid }) ∧
    (∀ v, decoded = some v → isJsonObj v = false →
        route_query decoded s =
          .error "AttributeError: object has no attribute get") := by
  refine ⟨?_, ?_, ?_⟩
  · intro hd
    subst hd
    unfold route_query
    rw [hu]
    rfl
  · intro kvs hd hvalid
    subst hd
    unfold route_query
    rw [hu]
    have hparse : parse_router_response (some (.obj kvs)) = .ok (.hybrid, .obj kvs) := by
      unfold parse_router_response
      dsimp only
      cases hl : jsonLookup kvs "query_type" with
      | none => rfl
      | some qt =>
          have hv := hvalid qt hl
          rw [Option.getD_some]
          split
          · simp [isValidQueryTypeField] at hv
          · simp [isValidQueryTypeField] at hv
          · simp [isValidQueryTypeField] at hv
          · rfl
    rw [hparse]
  · intro v hd hobj
    subst hd
    unfold route_query
    rw [hu]
    have hparse : parse_router_response (some v) =
        .error "AttributeError: object has no attribute get" := by
      cases v with
      | obj kvs => simp [isJsonObj] at hobj
      | null => rfl
      | bool b => rfl
      | num q => rfl
      | str sv => rfl
      | arr xs => rfl
    rw [hparse]

/-- Witness for C5 (amended): an undecodable Classify response on the
initial state defaults to hybrid without failing. -/
theorem c5_parse_failure_defaults_hybrid_witness :
    route_query none (initialState "total sales by region") =
      .ok { initialState "total sales by region" with
              query_type := some QueryType.hybrid } := by
  have h := c5_parse_failure_defaults_hybrid none
    (initialState "total sales by region") "total sales by region" (by rfl)
  exact h.1 rfl

/- ### Claim C6: forced approval at the iteration cap -/

/-- A state mid-run: two validate calls done, notes from the last revision
pass still attached, an analysis present. -/
def staleNotesState : AgentState :=
  { initialState "total sales by region" with
      analysis_result := some "partial answer"
      revision_notes := some "Issues found:\n  - missing total"
      iteration_count := 2 }

/-- C6 is false as stated: at the iteration cap the critic forces approval
and bypasses the provider, but it does NOT clear `revision_notes` — from a
state carrying the notes of the previous pass, the resulting approved state
still carries them, while the claim requires them to be absent. -/
theorem c6_counterexample_stale_notes :
    (validate 3 none staleNotesState).iteration_count = 3 ∧
    (validate 3 none staleNotesState).validation_status = .approved ∧
    (validate 3 none staleNotesState).revision_notes =
      some "Issues found:\n  - missing total" ∧
    (validate 3 none staleNotesState).revision_notes ≠ none := by
  refine ⟨rfl, rfl, rfl, by decide⟩

/-- C6 (amended): when the critic runs with `iteration_count` (after its
increment) at or above `max_revision_iterations`, it sets
`validation_status = approved` without calling the reasoning provider (the
result is the same for every provider response) — but `revision_notes` is
left unchanged rather than cleared: only `iteration_count`,
`validation_status` and the appended critic message differ from the input
state. -/
theorem c6_max_iterations_force_approval (m : Nat) (decoded : Option PyJson)
    (s : AgentState) (h : m ≤ s.iteration_count + 1) :
    validate m decoded s =
      { s with
          iteration_count := s.iteration_count + 1
          validation_status := .approved
          messages := s.messages ++ [Message.ai criticMaxIterMessage "critic"] } ∧
    (∀ other : Option PyJson, validate m other s = validate m decoded s) := by
  refine ⟨validate_force_approve m decoded s h, fun other => ?_⟩
  rw [validate_force_approve m other s h, validate_force_approve m decoded s h]

/-- Witness for C6 (amended) at cap 1 on the initial state. -/
theorem c6_max_iterations_force_approval_witness :
    validate 1 none (initialState "hi") =
      { initialState "hi" with
          iteration_count := 1
          validation_status := .approved
          messages := (initialState "hi").messages ++
            [Message.ai criticMaxIterMessage "critic"] } := by
  exact (c6_max_iterations_force_approval 1 none (initialState "hi") (by decide)).1

/- ### Claim C7: all-parse-failures run (spec Scenario C) -/

/-- Scenario C as an oracle: general query, one analyst answer, and a
critic whose response never parses. -/
def parseFailOracle : Oracle :=
  { router := some generalRouterJson
    researcher := fun _ => ⟨"", []⟩
    analyst := fun _ _ => ⟨"6 times 7 is 42.", []⟩
    critic := fun _ => none }

set_option maxRecDepth 10000 in
/-- C7 is false as stated (spec Scenario C): with `max_iterations = 3` and
every Validate response failing to parse, the run does NOT end at
`iteration_count = 3` after three Validate attempts — the very first parse
failure defaults to approved, which ends the run after a single Validate
call, at `iteration_count = 1`. -/
theorem c7_counterexample_single_iteration :
    ((runResult defaultSettings parseFailOracle 3 "What is 6 times 7?").1.map
        (fun p => (p.1, p.2.validation_status, p.2.iteration_count)) =
      [(Node.router, ValidationStatus.pending, 0),
       (Node.analyst, ValidationStatus.pending, 0),
       (Node.critic, ValidationStatus.approved, 1)]) ∧
    (runResult defaultSettings parseFailOracle 3 "What is 6 times 7?").2 = true :=
  ⟨rfl, rfl⟩

/-- C7 (amended): with `max_iterations = 3` and every Validate response
failing pydantic validation, the run still ends approved — but after
exactly one Validate call, at `iteration_count = 1`: the parse-failure
default is approval, which ends the revision loop immediately. -/
theorem c7_parse_failures_end_after_first_validate (oracle : Oracle)
    (msg : String)
    (hcrit : ∀ k, decodeValidationResult (oracle.critic k) = none)
    (hrouter : (route_query oracle.router (initialState msg)).isOk = true) :
    (runResult defaultSettings oracle 3 msg).2 = true ∧
    ((runResult defaultSettings oracle 3 msg).1.map Prod.fst).count Node.critic = 1 ∧
    (∀ p ∈ (runResult defaultSettings oracle 3 msg).1, p.1 = Node.critic →
        p.2.validation_status = .approved ∧ p.2.iteration_count = 1) := by
  unfold runResult runTrace
  dsimp only
  cases hr : route_query oracle.router (initialState msg) with
  | error e => rw [hr] at hrouter; simp [Except.isOk, Except.toBool] at hrouter
  | ok s1 =>
      have h1c : s1.iteration_count = 0 :=
        (route_query_ok_fields _ _ _ hr).1.trans rfl
      dsimp only
      by_cases hroute : get_route_decision s1 = "researcher"
      · rw [if_pos hroute]
        dsimp only
        set s2 := research oracle.researcher s1 with hs2def
        have h2c : s2.iteration_count = 0 := by
          rw [hs2def, (research_fields _ _).1, h1c]
        simp only [revisionLoop]
        set sa := analyze (oracle.analyst s2.iteration_count) s2 with hsadef
        have hac : sa.iteration_count = 0 := by
          rw [hsadef, (analyze_fields _ _).1, h2c]
        set sc := validate defaultSettings.max_revision_iterations
          (oracle.critic sa.iteration_count) sa with hscdef
        have happr : sc.validation_status = .approved := by
          rw [hscdef]
          exact validate_parse_failure_approves _ _ _ (hcrit sa.iteration_count)
        have hcc : sc.iteration_count = 1 := by
          rw [hscdef, validate_iteration, hac]
        have hend : ¬ (should_continue sc = "analyst") := by
          unfold should_continue
          rw [if_neg (by rw [happr]; decide)]
          decide
        rw [if_neg hend]
        refine ⟨rfl, rfl, ?_⟩
        intro p hp
        rcases List.mem_cons.1 hp with hpr | hp
        · subst hpr; intro hcontra; cases hcontra
        rcases List.mem_cons.1 hp with hpr | hp
        · subst hpr; intro hcontra; cases hcontra
        rcases List.mem_cons.1 hp with hpr | hp
        · subst hpr; intro hcontra; cases hcontra
        rcases List.mem_cons.1 hp with hpr | hp
        · subst hpr; intro _; exact ⟨happr, hcc⟩
        · simp at hp
      · rw [if_neg hroute]
        dsimp only
        simp only [revisionLoop]
        set sa := analyze (oracle.analyst s1.iteration_count) s1 with hsadef
        have hac : sa.iteration_count = 0 := by
          rw [hsadef, (analyze_fields _ _).1, h1c]
        set sc := validate defaultSettings.max_revision_iterations
          (oracle.critic sa.iteration_count) sa with hscdef
        have happr : sc.validation_status = .approved := by
          rw [hscdef]
          exact validate_parse_failure_approves _ _ _ (hcrit sa.iteration_count)
        have hcc : sc.iteration_count = 1 := by
          rw [hscdef, validate_iteration, hac]
        have hend : ¬ (should_continue sc = "analyst") := by
          unfold should_continue
          rw [if_neg (by rw [happr]; decide)]
          decide
        rw [if_neg hend]
        refine ⟨rfl, rfl, ?_⟩
        intro p hp
        rcases List.mem_cons.1 hp with hpr | hp
        · subst hpr; intro hcontra; cases hcontra
        rcases List.mem_cons.1 hp with hpr | hp
        · subst hpr; intro hcontra; cases hcontra
        rcases List.mem_cons.1 hp with hpr | hp
        · subst hpr; intro _; exact ⟨happr, hcc⟩
        · simp at hp

/-- Witness for C7 (amended) at the Scenario C oracle. -/
theorem c7_parse_failures_witness :
    (runResult defaultSettings parseFailOracle 3 "total sales by region").2 = true ∧
    ((runResult defaultSettings parseFailOracle 3 "total sales by region").1.map
        Prod.fst).count Node.critic = 1 ∧
    (∀ p ∈ (runResult defaultSettings parseFailOracle 3 "total sales by region").1,
        p.1 = Node.critic →
        p.2.validation_status = .approved ∧ p.2.iteration_count = 1) := by
  exact c7_parse_failures_end_after_first_validate parseFailOracle
    "total sales by region" (fun k => rfl) (by rfl)

/- ### Claim C10: empty analysis output approves immediately -/

/-- C10: when the critic runs below the iteration cap with an empty or
absent `analysis_result`, it approves immediately — without calling the
reasoning provider (same result for every provider response) and without
modifying `revision_notes` or any other field beyond the iteration count
and the status — and the conditional edge ends the run with the empty
answer. -/
theorem c10_empty_analysis_approves (m : Nat) (decoded : Option PyJson)
    (s : AgentState) (hlt : s.iteration_count + 1 < m)
    (hempty : s.analysis_result.getD "" = "") :
    validate m decoded s =
      { s with
          iteration_count := s.iteration_count + 1
          validation_status := .approved } ∧
    (∀ other : Option PyJson, validate m other s = validate m decoded s) ∧
    should_continue (validate m decoded s) = "end" := by
  have h := validate_empty_approve m decoded s hlt hempty
  refine ⟨h, fun other => ?_, ?_⟩
  · rw [validate_empty_approve m other s hlt hempty, h]
  · rw [h]
    rfl

/-- Witness for C10: the initial state (no analysis yet) under cap 3. -/
theorem c10_empty_analysis_approves_witness :
    validate 3 none (initialState "total sales by region") =
      { initialState "total sales by region" with
          iteration_count := 1
          validation_status := .approved } ∧
    should_continue (validate 3 none (initialState "total sales by region")) =
      "end" := by
  have h := c10_empty_analysis_approves 3 none
    (initialState "total sales by region") (by decide) (by rfl)
  exact ⟨h.1, h.2.2⟩

end TableauAssistant
